import Mathlib

/-!
Shallow embedding of the apeittrakerbot token-analysis pipeline.

Sources embedded:
- `src/deep_analyzer.py` (class `DeepTokenAnalyzer`): `analyze_token`,
  `get_basic_token_data`, `get_dex_pricing_info`, `get_holder_analysis`,
  `get_ethereum_holders_from_moralis`, `get_bsc_holders_from_moralis`,
  `detect_bundles`, `classify_holder_distribution`, `process_holder_data`,
  `get_solana_holders_from_helius`, `get_holder_distribution_from_helius`,
  `get_default_holder_analysis`, `get_security_analysis`,
  `check_contract_verification`, `check_honeypot_indicators`,
  `check_rug_pull_indicators`, `classify_risk_level`.
- `src/bot.py` (class `MemeCoinBot`): `detect_chain`, `scan_token`.

Modelling conventions: Python floats become exact rationals; Python ints stay
integers; dicts with fixed key sets become structures (keys that are present
only on some code paths become `Option` fields, `none` = key absent); a Python
function that can return `None` returns an `Option`; HTTP responses are
parameters (an `Upstream` record holding what each endpoint would answer, with
`none` for a network error / non-200 status); a caught `ZeroDivisionError`
inside `detect_bundles` is threaded as an `Option` (`none` = the exception was
raised, caught by the surrounding `except`).
-/

namespace ApeBot

/-- One holder record as built by the analyzer (keys `amount`, `owner`,
`address`; Moralis rows are reduced to the `amount` key the code reads,
with `owner`/`address` empty). `float(h.get('amount', 0))` is the `amount`
field. -/
structure Holder where
  amount : ℚ
  owner : String
  address : String
deriving DecidableEq, Repr

instance : Inhabited Holder := ⟨⟨0, "", ""⟩⟩

/-- One entry of the `top_10_holders` list built on the Helius path. -/
structure HolderEntry where
  address : String
  balance : ℚ
  percentage : ℚ
deriving DecidableEq, Repr

/-- The holder-analysis dict. `total_supply` and `top_10_holders` are keys
that only the Helius (Solana) path writes, hence `Option` (`none` = key
absent from the dict). -/
structure HolderAnalysis where
  total_holders : ℕ
  top_10_percentage : ℚ
  top_50_percentage : ℚ
  dev_wallet_percentage : ℚ
  dev_has_sold : Bool
  bundle_detected : Bool
  bundle_percentage : ℚ
  holder_distribution : String
  total_supply : Option ℚ := none
  top_10_holders : Option (List HolderEntry) := none
deriving DecidableEq, Repr

/-- `DeepTokenAnalyzer.get_default_holder_analysis` (deep_analyzer.py:695). -/
def get_default_holder_analysis : HolderAnalysis :=
  { total_holders := 0
    top_10_percentage := 0
    top_50_percentage := 0
    dev_wallet_percentage := 0
    dev_has_sold := false
    bundle_detected := false
    bundle_percentage := 0
    holder_distribution := "unknown" }

/-- `DeepTokenAnalyzer.classify_risk_level` (deep_analyzer.py:814). The
Python argument is an int. -/
def classify_risk_level (security_score : ℤ) : String :=
  if security_score ≥ 85 then "low"
  else if security_score ≥ 70 then "medium"
  else if security_score ≥ 50 then "high"
  else "critical"

/-- `DeepTokenAnalyzer.classify_holder_distribution` (deep_analyzer.py:316). -/
def classify_holder_distribution (holders : List Holder) : String :=
  if holders = [] then "unknown"
  else
    let total_supply := (holders.map (·.amount)).sum
    if total_supply = 0 then "unknown"
    else
      let top_5_amount := ((holders.take 5).map (·.amount)).sum
      let top_5_percentage := top_5_amount / total_supply * 100
      if top_5_percentage > 80 then "highly_concentrated"
      else if top_5_percentage > 50 then "concentrated"
      else if top_5_percentage > 20 then "moderate"
      else "distributed"

/-- Inner loop of `DeepTokenAnalyzer.detect_bundles` (deep_analyzer.py:287):
scan the indices `js` after the representative, collecting still-unused
holders within 5% relative variance of the representative amount `a`.
Matched indices are added to `used` immediately, as in the source, whatever
the final group size turns out to be. Returns `none` where Python would
raise `ZeroDivisionError` (`a = 0` with a positive other amount), which the
handler in `detect_bundles` turns into `(False, 0)`. -/
def bundle_scan (holders : List Holder) (a : ℚ) :
    List ℕ → List ℕ → List ℕ → Option (List ℕ × List ℕ)
  | [], bundle, used => some (bundle, used)
  | j :: js, bundle, used =>
    if j ∈ used then bundle_scan holders a js bundle used
    else
      let other_amount := (holders.getD j default).amount
      if 0 < other_amount then
        if a = 0 then none
        else if |a - other_amount| / a < 5 / 100 then
          bundle_scan holders a js (bundle ++ [j]) (used ++ [j])
        else bundle_scan holders a js bundle used
      else bundle_scan holders a js bundle used

/-- Outer loop of `detect_bundles` (deep_analyzer.py:280): for each unused
index run the inner scan; a group of size ≥ 3 is recorded and its members
marked used through `holders.index` (the first index holding an equal
record, exactly as the Python list method). -/
def bundle_outer (holders : List Holder) :
    List ℕ → List (List ℕ) → List ℕ → Option (List (List ℕ) × List ℕ)
  | [], bundles, used => some (bundles, used)
  | i :: rest, bundles, used =>
    if i ∈ used then bundle_outer holders rest bundles used
    else
      let amount := (holders.getD i default).amount
      match bundle_scan holders amount
          (List.range' (i + 1) (holders.length - (i + 1))) [i] used with
      | none => none
      | some (bundle, used1) =>
        if 3 ≤ bundle.length then
          bundle_outer holders rest (bundles ++ [bundle])
            (used1 ++ bundle.map fun k => holders.indexOf (holders.getD k default))
        else bundle_outer holders rest bundles used1

/-- `DeepTokenAnalyzer.detect_bundles` (deep_analyzer.py:270). A `none`
from the loops is the caught `ZeroDivisionError`, whose handler returns
`(False, 0)`. -/
def detect_bundles (holders : List Holder) : Bool × ℚ :=
  if holders.length < 5 then (false, 0)
  else
    match bundle_outer holders (List.range holders.length) [] [] with
    | none => (false, 0)
    | some (bundles, _) =>
      if bundles ≠ [] then
        let total_bundle_amount :=
          (bundles.map fun b => ((b.map fun k => (holders.getD k default).amount).sum)).sum
        let total_supply := (holders.map (·.amount)).sum
        let bundle_percentage :=
          if total_supply > 0 then total_bundle_amount / total_supply * 100 else 0
        (true, bundle_percentage)
      else (false, 0)

/-- `DeepTokenAnalyzer.process_holder_data` (deep_analyzer.py:342), used on
the Moralis (Ethereum/BSC) path. The incoming list is used as delivered,
without re-sorting. -/
def process_holder_data (holders : List Holder) : HolderAnalysis :=
  if holders = [] then get_default_holder_analysis
  else
    let total_supply := (holders.map (·.amount)).sum
    if total_supply = 0 then get_default_holder_analysis
    else
      let top_10_amount := ((holders.take 10).map (·.amount)).sum
      let top_50_amount := ((holders.take 50).map (·.amount)).sum
      let dev_percentage :=
        if total_supply > 0 then (holders.headD default).amount / total_supply * 100
        else 0
      let bd := detect_bundles holders
      { total_holders := holders.length
        top_10_percentage := if total_supply > 0 then top_10_amount / total_supply * 100 else 0
        top_50_percentage := if total_supply > 0 then top_50_amount / total_supply * 100 else 0
        dev_wallet_percentage := dev_percentage
        dev_has_sold := false
        bundle_detected := bd.1
        bundle_percentage := bd.2
        holder_distribution := classify_holder_distribution holders }

/-- One element of `result.token_accounts` in the Helius JSON-RPC response
(the fields the code reads). -/
structure TokenAccount where
  amount : ℚ
  owner : String
  address : String
deriving DecidableEq, Repr

/-- Body of `DeepTokenAnalyzer.get_holder_distribution_from_helius`
(deep_analyzer.py:394) once a 200 response carrying `token_accounts` is in
hand: keep the accounts with a truthy positive `amount` as holder records,
sort descending by amount, and build the holder-analysis dict (including
the `top_10_holders` and `total_supply` keys only this path writes).
Returns `none` where the code falls through to `return None` (no
positive-amount account). -/
def helius_process (token_accounts : List TokenAccount) : Option HolderAnalysis :=
  let holders := (token_accounts.filter fun a => 0 < a.amount).map
    fun a => Holder.mk a.amount a.owner a.address
  let total_supply := (holders.map (·.amount)).sum
  if holders = [] then none
  else
    let sorted := holders.mergeSort fun x y => decide (y.amount ≤ x.amount)
    let top_10_holders := sorted.take 10
    let top_10_balance := (top_10_holders.map (·.amount)).sum
    let top_10_percentage :=
      if total_supply > 0 then top_10_balance / total_supply * 100 else 0
    let dev_percentage :=
      if total_supply > 0 then (sorted.headD default).amount / total_supply * 100
      else 0
    let top_50_holders := sorted.take 50
    let top_50_balance := (top_50_holders.map (·.amount)).sum
    let top_50_percentage :=
      if total_supply > 0 then top_50_balance / total_supply * 100 else 0
    some
      { total_holders := sorted.length
        top_10_percentage := top_10_percentage
        top_50_percentage := top_50_percentage
        dev_wallet_percentage := dev_percentage
        dev_has_sold := false
        bundle_detected := decide (top_10_percentage > 50)
        bundle_percentage := if top_10_percentage > 50 then top_10_percentage else 0
        holder_distribution := classify_holder_distribution sorted
        total_supply := some total_supply
        top_10_holders := some (top_10_holders.map fun h =>
          HolderEntry.mk h.address h.amount
            (if total_supply > 0 then h.amount / total_supply * 100 else 0)) }

/-- `DeepTokenAnalyzer.get_solana_holders_from_helius` (deep_analyzer.py:376)
on a given Helius response (`none` = network error, non-200 status or a
missing or falsy `result`). -/
def get_solana_holders_from_helius (response : Option (List TokenAccount)) :
    Option HolderAnalysis :=
  match response with
  | none => none
  | some token_accounts =>
    match helius_process token_accounts with
    | none => none
    | some holder_data =>
      if holder_data.total_holders > 0 then some holder_data else none

/-- `DeepTokenAnalyzer.get_ethereum_holders_from_moralis`
(deep_analyzer.py:214) on a given Moralis response (`none` = network error
or non-200 status; `some` carries the `result` array). -/
def get_ethereum_holders_from_moralis (response : Option (List Holder)) :
    HolderAnalysis :=
  match response with
  | none => get_default_holder_analysis
  | some holders =>
    if holders ≠ [] then process_holder_data holders else get_default_holder_analysis

/-- `DeepTokenAnalyzer.get_bsc_holders_from_moralis` (deep_analyzer.py:242):
identical processing to the Ethereum variant, against the BSC query. -/
def get_bsc_holders_from_moralis (response : Option (List Holder)) :
    HolderAnalysis :=
  match response with
  | none => get_default_holder_analysis
  | some holders =>
    if holders ≠ [] then process_holder_data holders else get_default_holder_analysis

/-- Python `str.startswith`: the pattern is a prefix of the character
sequence. -/
def starts_with (s pre : String) : Bool := pre.data.isPrefixOf s.data

/-- `MemeCoinBot.detect_chain` (bot.py:67). -/
def detect_chain (token_address : String) : String :=
  if 32 ≤ token_address.length ∧ token_address.length ≤ 44
      ∧ ¬ starts_with token_address "0x" then "solana"
  else if starts_with token_address "0x" ∧ token_address.length = 42 then "ethereum"
  else "unknown"

/-- The security-analysis dict built by `get_security_analysis`
(deep_analyzer.py:777). -/
structure SecurityAnalysis where
  security_score : ℤ
  is_verified : Bool
  is_honeypot : Bool
  rug_indicators : Bool
  warnings : List String
  risk_level : String
deriving DecidableEq, Repr

/-- `DeepTokenAnalyzer.check_contract_verification` (deep_analyzer.py:796):
stub, always `False`. -/
def check_contract_verification (_token_address _chain : String) : Bool := false

/-- `DeepTokenAnalyzer.check_honeypot_indicators` (deep_analyzer.py:802):
stub, always `False`. -/
def check_honeypot_indicators (_token_address _chain : String) : Bool := false

/-- `DeepTokenAnalyzer.check_rug_pull_indicators` (deep_analyzer.py:808):
stub, always `False`. -/
def check_rug_pull_indicators (_token_address _chain : String) : Bool := false

/-- Scoring body of `DeepTokenAnalyzer.get_security_analysis`
(deep_analyzer.py:708), as a function of the fetched holder analysis
(`none` = the fetch returned Python `None`) and of the results of the three
stub checks. Each pair is the `(security_score, warnings)` state after one
block of the source; `risk_level` is computed from the score before the
`max(0, ...)` clamp, exactly as in the source. -/
def get_security_analysis (holder_analysis : Option HolderAnalysis)
    (is_verified is_honeypot rug_indicators : Bool) : SecurityAnalysis :=
  let s0 : ℤ := 100
  let w0 : List String := []
  let s1 := s0 - (if is_verified then 0 else 20)
  let w1 := if is_verified then w0 else w0 ++ ["Contract not verified"]
  let s2 :=
    match holder_analysis with
    | none => s1
    | some ha =>
      let sA := s1 -
        (if ha.dev_wallet_percentage > 50 then 60
         else if ha.dev_wallet_percentage > 30 then 40
         else if ha.dev_wallet_percentage > 20 then 25
         else 0)
      let sB := sA -
        (if ha.top_10_percentage > 70 then 50
         else if ha.top_10_percentage > 50 then 30
         else if ha.top_10_percentage > 40 then 15
         else 0)
      sB -
        (if ha.bundle_detected then
          (if ha.bundle_percentage > 30 then 40
           else if ha.bundle_percentage > 15 then 25
           else 10)
         else 0)
  let w2 :=
    match holder_analysis with
    | none => w1
    | some ha =>
      let wA :=
        if ha.dev_wallet_percentage > 50 then
          w1 ++ ["CRITICAL: Dev holds >50% - Extreme rug risk"]
        else if ha.dev_wallet_percentage > 30 then
          w1 ++ ["HIGH RISK: Dev holds >30% - High rug risk"]
        else if ha.dev_wallet_percentage > 20 then
          w1 ++ ["MEDIUM RISK: Dev holds >20% - Moderate rug risk"]
        else w1
      let wB :=
        if ha.top_10_percentage > 70 then
          wA ++ ["CRITICAL: Top 10 hold >70% - Extreme concentration"]
        else if ha.top_10_percentage > 50 then
          wA ++ ["HIGH RISK: Top 10 hold >50% - High concentration"]
        else if ha.top_10_percentage > 40 then
          wA ++ ["MEDIUM RISK: Top 10 hold >40% - Moderate concentration"]
        else wA
      if ha.bundle_detected then
        if ha.bundle_percentage > 30 then wB ++ ["CRITICAL: Bundle manipulation detected"]
        else if ha.bundle_percentage > 15 then wB ++ ["HIGH RISK: Bundle manipulation detected"]
        else wB ++ ["Bundle manipulation detected"]
      else wB
  let s3 := s2 - (if is_honeypot then 50 else 0)
  let w3 := if is_honeypot then w2 ++ ["Potential honeypot detected"] else w2
  let s4 := s3 - (if rug_indicators then 30 else 0)
  let w4 := if rug_indicators then w3 ++ ["Rug pull indicators detected"] else w3
  { security_score := max 0 s4
    is_verified := is_verified
    is_honeypot := is_honeypot
    rug_indicators := rug_indicators
    warnings := w4
    risk_level := classify_risk_level s4 }

/-- One entry of the DexScreener `pairs` array — the fields the code reads
(absent optional JSON keys are modelled by their `get` defaults: empty
lists for socials/websites, `0` for `boosts.active`). -/
structure DexPair where
  name : String
  symbol : String
  priceUsd : ℚ
  marketCap : ℚ
  volume_h24 : ℚ
  liquidity_usd : ℚ
  liquidity_eth : ℚ
  liquidity_btc : ℚ
  priceChange_h24 : ℚ
  priceChange_h1 : ℚ
  priceChange_h6 : ℚ
  dexId : String
  pairAddress : String
  pairCreatedAt : ℕ
  fdv : ℚ
  boosts_active : ℕ
  socials : List (String × String)
  websites : List (String × String)
deriving DecidableEq, Repr

/-- The dict returned by `get_basic_token_data` (deep_analyzer.py:71). -/
structure BasicTokenData where
  chain : String
  address : String
  name : String
  symbol : String
  price : ℚ
  market_cap : ℚ
  volume_24h : ℚ
  liquidity : ℚ
  price_change_24h : ℚ
  dex : String
  pair_created_at : ℕ
  fdv : ℚ
  price_change_1h : ℚ
  price_change_6h : ℚ
deriving DecidableEq, Repr

/-- The dict returned by `get_dex_pricing_info` (deep_analyzer.py:133). -/
structure DexPricing where
  is_promoted : Bool
  promotion_type : String
  boost_count : ℕ
  dex_id : String
  pair_address : String
  pair_created_at : ℕ
  liquidity_usd : ℚ
  liquidity_eth : ℚ
  liquidity_btc : ℚ
  social_links : List (String × String)
  websites : List (String × String)
deriving DecidableEq, Repr

/-- `DeepTokenAnalyzer.get_basic_token_data` (deep_analyzer.py:59) on a
given DexScreener `pairs` array; an empty list covers both a 200 response
with no pairs and any network error or non-200 status, all of which make
the Python function return `None`. -/
def get_basic_token_data (pairs : List DexPair) (token_address chain : String) :
    Option BasicTokenData :=
  match pairs with
  | [] => none
  | pair :: _ =>
    some
      { chain := chain
        address := token_address
        name := pair.name
        symbol := pair.symbol
        price := pair.priceUsd
        market_cap := pair.marketCap
        volume_24h := pair.volume_h24
        liquidity := pair.liquidity_usd
        price_change_24h := pair.priceChange_h24
        dex := pair.dexId
        pair_created_at := pair.pairCreatedAt
        fdv := pair.fdv
        price_change_1h := pair.priceChange_h1
        price_change_6h := pair.priceChange_h6 }

/-- `DeepTokenAnalyzer.get_dex_pricing_info` (deep_analyzer.py:92) on the
same `pairs` array; the empty list takes the fallback dict of line 149. -/
def get_dex_pricing_info (pairs : List DexPair) : DexPricing :=
  match pairs with
  | [] =>
    { is_promoted := false
      promotion_type := "free"
      boost_count := 0
      dex_id := "unknown"
      pair_address := ""
      pair_created_at := 0
      liquidity_usd := 0
      liquidity_eth := 0
      liquidity_btc := 0
      social_links := []
      websites := [] }
  | pair :: _ =>
    let is_promoted := pair.boosts_active > 0
    { is_promoted := is_promoted
      promotion_type := if is_promoted then "paid" else "free"
      boost_count := pair.boosts_active
      dex_id := pair.dexId
      pair_address := pair.pairAddress
      pair_created_at := pair.pairCreatedAt
      liquidity_usd := pair.liquidity_usd
      liquidity_eth := pair.liquidity_eth
      liquidity_btc := pair.liquidity_btc
      social_links := pair.socials
      websites := pair.websites }

/-- What each upstream endpoint would answer during one request: the
DexScreener `pairs` array, the Moralis holder arrays for the two EVM
chains, and the Helius token-account list. `none` = that call errors out
(network failure / bad status / missing payload). -/
structure Upstream where
  dex_pairs : List DexPair
  moralis_eth : Option (List Holder)
  moralis_bsc : Option (List Holder)
  helius_accounts : Option (List TokenAccount)

/-- `DeepTokenAnalyzer.get_holder_analysis` (deep_analyzer.py:163): chain
dispatch; `none` is Python `None` (only the Solana branch produces it); a
chain outside the three supported names falls through to the literal
default dict of line 175, whose values coincide with
`get_default_holder_analysis`. -/
def get_holder_analysis (u : Upstream) (chain : String) : Option HolderAnalysis :=
  if chain = "solana" then get_solana_holders_from_helius u.helius_accounts
  else if chain = "ethereum" then some (get_ethereum_holders_from_moralis u.moralis_eth)
  else if chain = "bsc" then some (get_bsc_holders_from_moralis u.moralis_bsc)
  else some get_default_holder_analysis

/-- `get_security_analysis` as called inside `analyze_token`
(deep_analyzer.py:708-712): it re-runs the holder fetch itself and invokes
the three stub checks. -/
def get_security_analysis_full (u : Upstream) (token_address chain : String) :
    SecurityAnalysis :=
  get_security_analysis (get_holder_analysis u chain)
    (check_contract_verification token_address chain)
    (check_honeypot_indicators token_address chain)
    (check_rug_pull_indicators token_address chain)

/-- The merged analysis dict of `analyze_token` (deep_analyzer.py:45). -/
structure TokenReport where
  basic : BasicTokenData
  dex_pricing : DexPricing
  holder_analysis : HolderAnalysis
  security_analysis : SecurityAnalysis
  analysis_timestamp : ℕ
deriving DecidableEq, Repr

/-- `DeepTokenAnalyzer.analyze_token` (deep_analyzer.py:22) against fixed
upstream answers; `now` is the wall-clock timestamp of line 50. -/
def analyze_token (u : Upstream) (now : ℕ) (token_address chain : String) :
    Option TokenReport :=
  match get_basic_token_data u.dex_pairs token_address chain with
  | none => none
  | some basic_data =>
    let dex_pricing := get_dex_pricing_info u.dex_pairs
    match get_holder_analysis u chain with
    | none => none
    | some holder_analysis =>
      some
        { basic := basic_data
          dex_pricing := dex_pricing
          holder_analysis := holder_analysis
          security_analysis := get_security_analysis_full u token_address chain
          analysis_timestamp := now }

/-- Outcome of one `/scan` command (the control-flow skeleton of
`MemeCoinBot.scan_token`, bot.py:79). -/
inductive ScanOutcome
  | missingArgument
  | invalidAddress
  | noData
  | success (report : TokenReport)
deriving DecidableEq, Repr

/-- Decision core of `MemeCoinBot.scan_token` (bot.py:79-112): no argument
⇒ usage reply; undetectable chain ⇒ the invalid-address reply before any
analysis; analyzer `None` ⇒ the no-data reply; otherwise the report is
formatted and sent. -/
def scan_token (u : Upstream) (now : ℕ) (args : List String) : ScanOutcome :=
  match args with
  | [] => .missingArgument
  | token_address :: _ =>
    let chain := detect_chain token_address
    if chain = "unknown" then .invalidAddress
    else
      match analyze_token u now token_address chain with
      | none => .noData
      | some report => .success report

/-- Concrete upstream fixture: one DexScreener pair and one Solana token
account with balance 5. -/
def upstream_solana_fixture : Upstream :=
  { dex_pairs := [⟨"T", "T", 1, 1, 1, 1, 1, 1, 0, 0, 0, "dex", "p", 0, 1, 0, [], []⟩]
    moralis_eth := none
    moralis_bsc := none
    helius_accounts := some [⟨5, "o", "a"⟩] }

/-- The holder analysis the Helius path computes on the fixture account. -/
def helius_fixture_analysis : HolderAnalysis :=
  { total_holders := 1
    top_10_percentage := 100
    top_50_percentage := 100
    dev_wallet_percentage := 100
    dev_has_sold := false
    bundle_detected := true
    bundle_percentage := 100
    holder_distribution := "highly_concentrated"
    total_supply := some 5
    top_10_holders := some [⟨"a", 5, 100⟩] }

/-- The report `analyze_token` assembles on the fixture. -/
def solana_fixture_report : TokenReport :=
  { basic := ⟨"solana", "a", "T", "T", 1, 1, 1, 1, 0, "dex", 0, 1, 0, 0⟩
    dex_pricing := get_dex_pricing_info upstream_solana_fixture.dex_pairs
    holder_analysis := helius_fixture_analysis
    security_analysis := get_security_analysis_full upstream_solana_fixture "a" "solana"
    analysis_timestamp := 0 }

/-- First-applicable dev-wallet penalty of the scorer (deep_analyzer.py:731):
>50 costs 60, else >30 costs 40, else >20 costs 25. -/
def dev_penalty (p : ℚ) : ℤ :=
  if p > 50 then 60 else if p > 30 then 40 else if p > 20 then 25 else 0

/-- First-applicable top-10 concentration penalty (deep_analyzer.py:742):
>70 costs 50, else >50 costs 30, else >40 costs 15. -/
def top10_penalty (p : ℚ) : ℤ :=
  if p > 70 then 50 else if p > 50 then 30 else if p > 40 then 15 else 0

/-- First-applicable bundle penalty (deep_analyzer.py:753): nothing unless
a bundle was detected, then >30 costs 40, else >15 costs 25, else 10. -/
def bundle_penalty (detected : Bool) (p : ℚ) : ℤ :=
  if detected then (if p > 30 then 40 else if p > 15 then 25 else 10) else 0

/-- Combined holder-block penalty of the scorer: zero when the holder fetch
returned `None`, otherwise one penalty per category. -/
def holder_penalty : Option HolderAnalysis → ℤ
  | none => 0
  | some ha =>
    dev_penalty ha.dev_wallet_percentage + top10_penalty ha.top_10_percentage
      + bundle_penalty ha.bundle_detected ha.bundle_percentage

/-! ## Claim theorems -/

set_option maxHeartbeats 2000000 in
/-- The score of `get_security_analysis` is 100 minus one first-applicable
penalty per category, clamped below at 0. -/
theorem security_score_eq (ha : Option HolderAnalysis) (v hp r : Bool) :
    (get_security_analysis ha v hp r).security_score
      = max 0 (100 - (if v then 0 else 20) - holder_penalty ha
          - (if hp then 50 else 0) - (if r then 30 else 0)) := by
  cases ha <;>
    dsimp only [get_security_analysis, holder_penalty, dev_penalty, top10_penalty,
      bundle_penalty] <;>
    split_ifs <;> norm_num

/-- `dev_penalty` is monotone. -/
theorem dev_penalty_mono {p q : ℚ} (h : p ≤ q) : dev_penalty p ≤ dev_penalty q := by
  unfold dev_penalty
  split_ifs <;> first | (exfalso; linarith) | norm_num

/-- `top10_penalty` is monotone. -/
theorem top10_penalty_mono {p q : ℚ} (h : p ≤ q) : top10_penalty p ≤ top10_penalty q := by
  unfold top10_penalty
  split_ifs <;> first | (exfalso; linarith) | norm_num

/-- `bundle_penalty` is monotone in the percentage and in the flag. -/
theorem bundle_penalty_mono (d e : Bool) {p q : ℚ} (hd : d = true → e = true)
    (h : p ≤ q) : bundle_penalty d p ≤ bundle_penalty e q := by
  unfold bundle_penalty
  cases d
  · cases e <;> simp <;> split_ifs <;> norm_num
  · rw [hd rfl]
    split_ifs <;> first | (exfalso; linarith) | norm_num

/-- Every category penalty is non-negative. -/
theorem holder_penalty_nonneg (ha : Option HolderAnalysis) : 0 ≤ holder_penalty ha := by
  cases ha
  · simp [holder_penalty]
  · simp only [holder_penalty, dev_penalty, top10_penalty, bundle_penalty]
    split_ifs <;> norm_num

/-- C3: for every integer score, `classify_risk_level` returns low when the
score is at least 85, medium on 70–84, high on 50–69 and critical at 49 or
below; in particular 85 maps to low, 84 and 70 to medium, 69 and 50 to
high, and 49 to critical. -/
theorem classify_risk_level_boundaries :
    (∀ s : ℤ, 85 ≤ s → classify_risk_level s = "low")
    ∧ (∀ s : ℤ, 70 ≤ s → s ≤ 84 → classify_risk_level s = "medium")
    ∧ (∀ s : ℤ, 50 ≤ s → s ≤ 69 → classify_risk_level s = "high")
    ∧ (∀ s : ℤ, s ≤ 49 → classify_risk_level s = "critical")
    ∧ classify_risk_level 85 = "low" ∧ classify_risk_level 84 = "medium"
    ∧ classify_risk_level 70 = "medium" ∧ classify_risk_level 69 = "high"
    ∧ classify_risk_level 50 = "high" ∧ classify_risk_level 49 = "critical" := by
  refine ⟨fun s h => ?_, fun s h1 h2 => ?_, fun s h1 h2 => ?_, fun s h => ?_,
    by decide, by decide, by decide, by decide, by decide, by decide⟩
  · unfold classify_risk_level
    rw [if_pos h]
  · unfold classify_risk_level
    rw [if_neg (by omega), if_pos h1]
  · unfold classify_risk_level
    rw [if_neg (by omega), if_neg (by omega), if_pos h1]
  · unfold classify_risk_level
    rw [if_neg (by omega), if_neg (by omega), if_neg (by omega)]

/-- Witness for C3 at concrete scores. -/
theorem classify_risk_level_boundaries_witness :
    classify_risk_level 90 = "low" ∧ classify_risk_level 75 = "medium"
    ∧ classify_risk_level 60 = "high" ∧ classify_risk_level 10 = "critical" :=
  ⟨classify_risk_level_boundaries.1 90 (by norm_num),
   classify_risk_level_boundaries.2.1 75 (by norm_num) (by norm_num),
   classify_risk_level_boundaries.2.2.1 60 (by norm_num) (by norm_num),
   classify_risk_level_boundaries.2.2.2.1 10 (by norm_num)⟩

/-- C5: `detect_bundles` on a holder list with fewer than 5 entries returns
`(false, 0)`. -/
theorem detect_bundles_short (holders : List Holder) (h : holders.length < 5) :
    detect_bundles holders = (false, 0) := by
  unfold detect_bundles
  rw [if_pos h]

/-- Witness for C5 on a one-element list. -/
theorem detect_bundles_short_witness :
    ([(⟨1, "o", "a"⟩ : Holder)]).length < 5
    ∧ detect_bundles [⟨1, "o", "a"⟩] = (false, 0) :=
  ⟨by decide, detect_bundles_short [⟨1, "o", "a"⟩] (by decide)⟩

/-- C7: `detect_chain` answers ethereum exactly on a `0x`-prefixed address
of length 42, solana exactly on an address of length 32–44 without the
`0x` prefix, and unknown on every other shape; when the result is unknown,
`scan_token` replies with the invalid-address message no matter what the
upstream APIs would answer, so no analysis is attempted. -/
theorem detect_chain_spec :
    (∀ a : String, detect_chain a = "ethereum" ↔ starts_with a "0x" ∧ a.length = 42)
    ∧ (∀ a : String, detect_chain a = "solana" ↔
        32 ≤ a.length ∧ a.length ≤ 44 ∧ ¬ starts_with a "0x")
    ∧ (∀ a : String, ¬ (starts_with a "0x" ∧ a.length = 42) →
        ¬ (32 ≤ a.length ∧ a.length ≤ 44 ∧ ¬ starts_with a "0x") →
        detect_chain a = "unknown")
    ∧ (∀ (a : String) (u : Upstream) (now : ℕ), detect_chain a = "unknown" →
        scan_token u now [a] = ScanOutcome.invalidAddress) := by
  refine ⟨fun a => ?_, fun a => ?_, fun a he hs => ?_, fun a u now h => ?_⟩
  · unfold detect_chain
    split_ifs with h1 h2
    · exact ⟨fun h => absurd h (by decide), fun hx => absurd hx.1 h1.2.2⟩
    · exact ⟨fun _ => h2, fun _ => rfl⟩
    · exact ⟨fun h => absurd h (by decide), fun hx => absurd hx h2⟩
  · unfold detect_chain
    split_ifs with h1 h2
    · exact ⟨fun _ => h1, fun _ => rfl⟩
    · exact ⟨fun h => absurd h (by decide), fun hx => absurd hx h1⟩
    · exact ⟨fun h => absurd h (by decide), fun hx => absurd hx h1⟩
  · unfold detect_chain
    rw [if_neg hs, if_neg he]
  · dsimp only [scan_token]
    rw [if_pos h]

/-- Witness for C7 on concrete malformed addresses. -/
theorem detect_chain_spec_witness :
    detect_chain "hello" = "unknown"
    ∧ scan_token ⟨[], none, none, none⟩ 0 ["0xabc"] = ScanOutcome.invalidAddress :=
  ⟨detect_chain_spec.2.2.1 "hello" (by decide) (by decide),
   detect_chain_spec.2.2.2 "0xabc" ⟨[], none, none, none⟩ 0 (by decide)⟩

/-- C4: on a non-empty holder list with positive observed supply the
distribution class is decided by the top-5 share with strictly exclusive
upper bounds (>80 highly_concentrated, >50 concentrated, >20 moderate,
else distributed); a top-5 share of exactly 81% is highly_concentrated and
one of exactly 50% is moderate. -/
theorem classify_holder_distribution_spec :
    (∀ holders : List Holder, holders ≠ [] →
      0 < (holders.map (·.amount)).sum →
      (80 < ((holders.take 5).map (·.amount)).sum / (holders.map (·.amount)).sum * 100 →
        classify_holder_distribution holders = "highly_concentrated")
      ∧ (50 < ((holders.take 5).map (·.amount)).sum / (holders.map (·.amount)).sum * 100 →
          ((holders.take 5).map (·.amount)).sum / (holders.map (·.amount)).sum * 100 ≤ 80 →
          classify_holder_distribution holders = "concentrated")
      ∧ (20 < ((holders.take 5).map (·.amount)).sum / (holders.map (·.amount)).sum * 100 →
          ((holders.take 5).map (·.amount)).sum / (holders.map (·.amount)).sum * 100 ≤ 50 →
          classify_holder_distribution holders = "moderate")
      ∧ (((holders.take 5).map (·.amount)).sum / (holders.map (·.amount)).sum * 100 ≤ 20 →
          classify_holder_distribution holders = "distributed"))
    ∧ ((([⟨17, "", ""⟩, ⟨16, "", ""⟩, ⟨16, "", ""⟩, ⟨16, "", ""⟩, ⟨16, "", ""⟩,
          ⟨19, "", ""⟩] : List Holder).take 5).map (·.amount)).sum
        / (([⟨17, "", ""⟩, ⟨16, "", ""⟩, ⟨16, "", ""⟩, ⟨16, "", ""⟩, ⟨16, "", ""⟩,
          ⟨19, "", ""⟩] : List Holder).map (·.amount)).sum * 100 = 81
    ∧ classify_holder_distribution
        [⟨17, "", ""⟩, ⟨16, "", ""⟩, ⟨16, "", ""⟩, ⟨16, "", ""⟩, ⟨16, "", ""⟩,
          ⟨19, "", ""⟩] = "highly_concentrated"
    ∧ ((([⟨10, "", ""⟩, ⟨10, "", ""⟩, ⟨10, "", ""⟩, ⟨10, "", ""⟩, ⟨10, "", ""⟩,
          ⟨50, "", ""⟩] : List Holder).take 5).map (·.amount)).sum
        / (([⟨10, "", ""⟩, ⟨10, "", ""⟩, ⟨10, "", ""⟩, ⟨10, "", ""⟩, ⟨10, "", ""⟩,
          ⟨50, "", ""⟩] : List Holder).map (·.amount)).sum * 100 = 50
    ∧ classify_holder_distribution
        [⟨10, "", ""⟩, ⟨10, "", ""⟩, ⟨10, "", ""⟩, ⟨10, "", ""⟩, ⟨10, "", ""⟩,
          ⟨50, "", ""⟩] = "moderate" := by
  refine ⟨fun holders hne hpos => ?_,
    by norm_num,
    by norm_num [classify_holder_distribution]; intro h; exact (List.cons_ne_nil _ _ h).elim,
    by norm_num,
    by norm_num [classify_holder_distribution]; intro h; exact (List.cons_ne_nil _ _ h).elim⟩
  unfold classify_holder_distribution
  rw [if_neg hne, if_neg hpos.ne']
  dsimp only
  refine ⟨fun h1 => ?_, fun h1 h2 => ?_, fun h1 h2 => ?_, fun h1 => ?_⟩
  · rw [if_pos h1]
  · rw [if_neg (by linarith), if_pos h1]
  · rw [if_neg (by linarith), if_neg (by linarith), if_pos h1]
  · rw [if_neg (by linarith), if_neg (by linarith), if_neg (by linarith)]

/-- Witness for C4 on a concrete concentrated list. -/
theorem classify_holder_distribution_spec_witness :
    classify_holder_distribution
      [⟨90, "", ""⟩, ⟨1, "", ""⟩, ⟨1, "", ""⟩, ⟨1, "", ""⟩, ⟨1, "", ""⟩,
        ⟨6, "", ""⟩] = "highly_concentrated" :=
  (classify_holder_distribution_spec.1
    [⟨90, "", ""⟩, ⟨1, "", ""⟩, ⟨1, "", ""⟩, ⟨1, "", ""⟩, ⟨1, "", ""⟩, ⟨6, "", ""⟩]
    (by decide) (by norm_num)).1 (by norm_num)

/-- C2: the security score is monotonically non-increasing as any single
penalty-triggering input worsens with the others fixed (dev-wallet, top-10
and bundle percentages, the bundle flag, and the verification, honeypot and
rug flags); each category contributes exactly its first-applicable penalty
once, so the score is 100 minus one penalty per category, clamped at 0; in
particular dev-wallet percentages 10, 25, 35, 55 on otherwise benign input
give scores 100, 75, 60, 40. -/
theorem security_score_monotone :
    (∀ (ha : HolderAnalysis) (v hp r : Bool) (p q : ℚ), p ≤ q →
      (get_security_analysis (some { ha with dev_wallet_percentage := q }) v hp r).security_score
        ≤ (get_security_analysis (some { ha with dev_wallet_percentage := p }) v hp r).security_score)
    ∧ (∀ (ha : HolderAnalysis) (v hp r : Bool) (p q : ℚ), p ≤ q →
      (get_security_analysis (some { ha with top_10_percentage := q }) v hp r).security_score
        ≤ (get_security_analysis (some { ha with top_10_percentage := p }) v hp r).security_score)
    ∧ (∀ (ha : HolderAnalysis) (v hp r : Bool) (p q : ℚ), p ≤ q →
      (get_security_analysis (some { ha with bundle_percentage := q }) v hp r).security_score
        ≤ (get_security_analysis (some { ha with bundle_percentage := p }) v hp r).security_score)
    ∧ (∀ (ha : HolderAnalysis) (v hp r : Bool),
      (get_security_analysis (some { ha with bundle_detected := true }) v hp r).security_score
        ≤ (get_security_analysis (some { ha with bundle_detected := false }) v hp r).security_score)
    ∧ (∀ (ha : Option HolderAnalysis) (hp r : Bool),
      (get_security_analysis ha false hp r).security_score
        ≤ (get_security_analysis ha true hp r).security_score)
    ∧ (∀ (ha : Option HolderAnalysis) (v r : Bool),
      (get_security_analysis ha v true r).security_score
        ≤ (get_security_analysis ha v false r).security_score)
    ∧ (∀ (ha : Option HolderAnalysis) (v hp : Bool),
      (get_security_analysis ha v hp true).security_score
        ≤ (get_security_analysis ha v hp false).security_score)
    ∧ (∀ (ha : Option HolderAnalysis) (v hp r : Bool),
      (get_security_analysis ha v hp r).security_score
        = max 0 (100 - (if v then 0 else 20) - holder_penalty ha
            - (if hp then 50 else 0) - (if r then 30 else 0)))
    ∧ (get_security_analysis
        (some { get_default_holder_analysis with dev_wallet_percentage := 10 })
        true false false).security_score = 100
    ∧ (get_security_analysis
        (some { get_default_holder_analysis with dev_wallet_percentage := 25 })
        true false false).security_score = 75
    ∧ (get_security_analysis
        (some { get_default_holder_analysis with dev_wallet_percentage := 35 })
        true false false).security_score = 60
    ∧ (get_security_analysis
        (some { get_default_holder_analysis with dev_wallet_percentage := 55 })
        true false false).security_score = 40 := by
  refine ⟨?_, ?_, ?_, ?_, ?_, ?_, ?_, fun ha v hp r => security_score_eq ha v hp r,
    ?_, ?_, ?_, ?_⟩
  · intro ha v hp r p q hpq
    rw [security_score_eq, security_score_eq]
    refine max_le_max le_rfl ?_
    have h1 := dev_penalty_mono hpq
    simp only [holder_penalty]
    omega
  · intro ha v hp r p q hpq
    rw [security_score_eq, security_score_eq]
    refine max_le_max le_rfl ?_
    have h1 := top10_penalty_mono hpq
    simp only [holder_penalty]
    omega
  · intro ha v hp r p q hpq
    rw [security_score_eq, security_score_eq]
    refine max_le_max le_rfl ?_
    have h1 := bundle_penalty_mono ha.bundle_detected ha.bundle_detected
      (fun h => h) hpq
    simp only [holder_penalty]
    omega
  · intro ha v hp r
    rw [security_score_eq, security_score_eq]
    refine max_le_max le_rfl ?_
    have h1 := bundle_penalty_mono false true
      (fun h => nomatch h) (le_refl ha.bundle_percentage)
    simp only [holder_penalty]
    omega
  · intro ha hp r
    rw [security_score_eq, security_score_eq]
    refine max_le_max le_rfl ?_
    norm_num
    try omega
  · intro ha v r
    rw [security_score_eq, security_score_eq]
    refine max_le_max le_rfl ?_
    norm_num
    try omega
  · intro ha v hp
    rw [security_score_eq, security_score_eq]
    refine max_le_max le_rfl ?_
    norm_num
    try omega
  · rw [security_score_eq]
    norm_num [holder_penalty, dev_penalty, top10_penalty, bundle_penalty,
      get_default_holder_analysis]
  · rw [security_score_eq]
    norm_num [holder_penalty, dev_penalty, top10_penalty, bundle_penalty,
      get_default_holder_analysis]
  · rw [security_score_eq]
    norm_num [holder_penalty, dev_penalty, top10_penalty, bundle_penalty,
      get_default_holder_analysis]
  · rw [security_score_eq]
    norm_num [holder_penalty, dev_penalty, top10_penalty, bundle_penalty,
      get_default_holder_analysis]

/-- Witness for C2 at concrete worsening inputs. -/
theorem security_score_monotone_witness :
    (get_security_analysis
        (some { get_default_holder_analysis with dev_wallet_percentage := 55 })
        true false false).security_score
      ≤ (get_security_analysis
        (some { get_default_holder_analysis with dev_wallet_percentage := 10 })
        true false false).security_score :=
  security_score_monotone.1 get_default_holder_analysis true false false 10 55
    (by norm_num)

/-- C8: for every holder analysis and every combination of stub-check
results, the returned security score lies in [0, 100]: the base is 100,
every penalty is non-positive, and the result is clamped below at 0. -/
theorem security_score_bounds (ha : Option HolderAnalysis) (v hp r : Bool) :
    0 ≤ (get_security_analysis ha v hp r).security_score
    ∧ (get_security_analysis ha v hp r).security_score ≤ 100 := by
  rw [security_score_eq]
  have h1 := holder_penalty_nonneg ha
  constructor
  · exact le_max_left 0 _
  · refine max_le (by norm_num) ?_
    have h2 : (0 : ℤ) ≤ if v then 0 else 20 := by split_ifs <;> norm_num
    have h3 : (0 : ℤ) ≤ if hp then 50 else 0 := by split_ifs <;> norm_num
    have h4 : (0 : ℤ) ≤ if r then 30 else 0 := by split_ifs <;> norm_num
    omega

/-- C1: with no trading pairs from the market-data fetch, `analyze_token`
fails (`none`) on every chain; with the holder fetch unavailable the
outcome is chain-dependent: on solana `analyze_token` fails, while on
ethereum and bsc it returns a full report whose holder section is the
all-zero default analysis (0 total holders, distribution unknown); and a
returned report always carries the fetched holder analysis and a security
analysis, so neither section is ever missing. -/
theorem analyze_token_error_handling :
    (∀ (u : Upstream) (now : ℕ) (addr chain : String), u.dex_pairs = [] →
      analyze_token u now addr chain = none)
    ∧ (∀ (u : Upstream) (now : ℕ) (addr : String),
      get_solana_holders_from_helius u.helius_accounts = none →
      analyze_token u now addr "solana" = none)
    ∧ (∀ (u : Upstream) (now : ℕ) (addr : String), u.dex_pairs ≠ [] →
      (u.moralis_eth = none ∨ u.moralis_eth = some []) →
      ∃ report, analyze_token u now addr "ethereum" = some report
        ∧ report.holder_analysis = get_default_holder_analysis
        ∧ report.holder_analysis.total_holders = 0
        ∧ report.holder_analysis.holder_distribution = "unknown")
    ∧ (∀ (u : Upstream) (now : ℕ) (addr : String), u.dex_pairs ≠ [] →
      (u.moralis_bsc = none ∨ u.moralis_bsc = some []) →
      ∃ report, analyze_token u now addr "bsc" = some report
        ∧ report.holder_analysis = get_default_holder_analysis
        ∧ report.holder_analysis.total_holders = 0
        ∧ report.holder_analysis.holder_distribution = "unknown")
    ∧ (∀ (u : Upstream) (now : ℕ) (addr chain : String) (report : TokenReport),
      analyze_token u now addr chain = some report →
      (∃ ha, get_holder_analysis u chain = some ha ∧ report.holder_analysis = ha)
        ∧ report.security_analysis = get_security_analysis_full u addr chain) := by
  refine ⟨?_, ?_, ?_, ?_, ?_⟩
  · intro u now addr chain h
    simp [analyze_token, get_basic_token_data, h]
  · intro u now addr h
    rcases hb : get_basic_token_data u.dex_pairs addr "solana" with _ | b
    · simp [analyze_token, hb]
    · simp [analyze_token, hb, get_holder_analysis, h]
  · intro u now addr hd hm
    rcases hu : u.dex_pairs with _ | ⟨p, ps⟩
    · exact absurd hu hd
    · rcases hA : analyze_token u now addr "ethereum" with _ | report
      · rcases hm with hm | hm <;>
          simp [analyze_token, get_basic_token_data, hu, get_holder_analysis,
            get_ethereum_holders_from_moralis, hm] at hA
      · have hA2 := hA
        rcases hm with hm | hm <;>
        · simp [analyze_token, get_basic_token_data, hu, get_holder_analysis,
            get_ethereum_holders_from_moralis, hm] at hA2
          refine ⟨report, rfl, ?_, ?_, ?_⟩ <;> (rw [← hA2]; try rfl)
  · intro u now addr hd hm
    rcases hu : u.dex_pairs with _ | ⟨p, ps⟩
    · exact absurd hu hd
    · rcases hA : analyze_token u now addr "bsc" with _ | report
      · rcases hm with hm | hm <;>
          simp [analyze_token, get_basic_token_data, hu, get_holder_analysis,
            get_bsc_holders_from_moralis, hm] at hA
      · have hA2 := hA
        rcases hm with hm | hm <;>
        · simp [analyze_token, get_basic_token_data, hu, get_holder_analysis,
            get_bsc_holders_from_moralis, hm] at hA2
          refine ⟨report, rfl, ?_, ?_, ?_⟩ <;> (rw [← hA2]; try rfl)
  · intro u now addr chain report h
    rcases hb : get_basic_token_data u.dex_pairs addr chain with _ | b
    · simp [analyze_token, hb] at h
    · rcases hh : get_holder_analysis u chain with _ | ha
      · simp [analyze_token, hb, hh] at h
      · simp [analyze_token, hb, hh] at h
        subst h
        exact ⟨⟨ha, rfl, rfl⟩, rfl⟩

/-- Witness for C1 on concrete upstream data. -/
theorem analyze_token_error_handling_witness :
    analyze_token ⟨[], none, none, none⟩ 0 "a" "solana" = none
    ∧ analyze_token
        ⟨[⟨"T", "T", 1, 1, 1, 1, 1, 1, 0, 0, 0, "dex", "p", 0, 1, 0, [], []⟩],
          none, none, none⟩ 5 "a" "solana" = none
    ∧ (analyze_token
        ⟨[⟨"T", "T", 1, 1, 1, 1, 1, 1, 0, 0, 0, "dex", "p", 0, 1, 0, [], []⟩],
          none, none, none⟩ 5 "a" "ethereum").map
        (fun report => report.holder_analysis) = some get_default_holder_analysis := by
  refine ⟨analyze_token_error_handling.1 ⟨[], none, none, none⟩ 0 "a" "solana" rfl,
    analyze_token_error_handling.2.1 _ 5 "a" rfl, ?_⟩
  obtain ⟨report, h1, h2, -, -⟩ := analyze_token_error_handling.2.2.1
    ⟨[⟨"T", "T", 1, 1, 1, 1, 1, 1, 0, 0, 0, "dex", "p", 0, 1, 0, [], []⟩],
      none, none, none⟩ 5 "a" (by simp) (Or.inl rfl)
  rw [h1]
  simp [h2]

/-- Evaluation of the Helius processing on the fixture account. -/
theorem helius_process_fixture :
    helius_process [⟨5, "o", "a"⟩] = some helius_fixture_analysis := by
  unfold helius_process helius_fixture_analysis
  norm_num [classify_holder_distribution]

/-- Evaluation of the aggregator on the fixture. -/
theorem analyze_token_fixture :
    analyze_token upstream_solana_fixture 0 "a" "solana" = some solana_fixture_report := by
  have h1 : get_holder_analysis upstream_solana_fixture "solana"
      = some helius_fixture_analysis := by
    unfold get_holder_analysis
    rw [if_pos rfl]
    simp [upstream_solana_fixture, get_solana_holders_from_helius, helius_process_fixture,
      helius_fixture_analysis]
  have h0 : upstream_solana_fixture.dex_pairs
      = [⟨"T", "T", 1, 1, 1, 1, 1, 1, 0, 0, 0, "dex", "p", 0, 1, 0, [], []⟩] := rfl
  simp [analyze_token, get_basic_token_data, h0, h1, solana_fixture_report]

/-- C10: on the Helius (Solana) path the bundle fields bypass the
5%-variance heuristic entirely: a bundle is flagged exactly when the top-10
share of observed supply exceeds 50, and the bundle percentage equals that
share when it exceeds 50 and 0 otherwise. -/
theorem helius_bundle_fields (token_accounts : List TokenAccount)
    (d : HolderAnalysis) (h : helius_process token_accounts = some d) :
    (d.bundle_detected = true ↔ d.top_10_percentage > 50)
    ∧ d.bundle_percentage
      = (if d.top_10_percentage > 50 then d.top_10_percentage else 0) := by
  unfold helius_process at h
  dsimp only at h
  split at h
  · exact absurd h (by simp)
  · rw [Option.some.injEq] at h
    subst h
    exact ⟨by simp, rfl⟩

/-- Witness for C10 on the fixture account. -/
theorem helius_bundle_fields_witness :
    (helius_fixture_analysis.bundle_detected = true
      ↔ helius_fixture_analysis.top_10_percentage > 50)
    ∧ helius_fixture_analysis.bundle_percentage
      = (if helius_fixture_analysis.top_10_percentage > 50
          then helius_fixture_analysis.top_10_percentage else 0) :=
  helius_bundle_fields [⟨5, "o", "a"⟩] helius_fixture_analysis helius_process_fixture

/-- The `top_10_holders` list built by the Helius processing has at most 10
entries, is pairwise descending in balance, and has exactly 10 entries when
at least 10 positive-balance holders were fetched. -/
theorem helius_top10_sorted {token_accounts : List TokenAccount}
    {d : HolderAnalysis} (h : helius_process token_accounts = some d) :
    ∃ l, d.top_10_holders = some l ∧ l.length ≤ 10
      ∧ l.Pairwise (fun x y => y.balance ≤ x.balance)
      ∧ (10 ≤ d.total_holders → l.length = 10) := by
  unfold helius_process at h
  dsimp only at h
  split at h
  · exact absurd h (by simp)
  · rw [Option.some.injEq] at h
    subst h
    refine ⟨_, rfl, ?_, ?_, ?_⟩
    · rw [List.length_map, List.length_take]
      exact min_le_left _ _
    · rw [List.pairwise_map]
      have hs := @List.sorted_mergeSort Holder
        (fun x y : Holder => decide (y.amount ≤ x.amount))
        (by intro a b c h1 h2; simp at *; linarith)
        (by intro a b; simp [Bool.or_eq_true]; exact le_total _ _)
        ((token_accounts.filter fun a => 0 < a.amount).map
          fun a => Holder.mk a.amount a.owner a.address)
      exact (hs.sublist (List.take_sublist 10 _)).imp fun hab => of_decide_eq_true hab
    · intro h10
      rw [List.length_map, List.length_take]
      exact min_eq_left h10

/-- C9 (amended to the Solana path, where the `top_10_holders` key exists):
every successfully returned Solana token report carries a `top_10_holders`
sequence of at most 10 entries, pairwise sorted by balance in descending
order, and exactly 10 entries whenever the fetched positive-balance holder
list has at least 10 holders. -/
theorem solana_report_top10_sorted (u : Upstream) (now : ℕ) (addr : String)
    (report : TokenReport) (h : analyze_token u now addr "solana" = some report) :
    ∃ l, report.holder_analysis.top_10_holders = some l
      ∧ l.length ≤ 10
      ∧ l.Pairwise (fun x y => y.balance ≤ x.balance)
      ∧ (10 ≤ report.holder_analysis.total_holders → l.length = 10) := by
  rcases hb : get_basic_token_data u.dex_pairs addr "solana" with _ | b
  · simp [analyze_token, hb] at h
  · rcases hh : get_holder_analysis u "solana" with _ | ha
    · simp [analyze_token, hb, hh] at h
    · simp [analyze_token, hb, hh] at h
      subst h
      dsimp only
      unfold get_holder_analysis at hh
      rw [if_pos rfl] at hh
      rcases hr : u.helius_accounts with _ | accounts
      · rw [hr] at hh
        exact absurd hh (by simp [get_solana_holders_from_helius])
      · rw [hr] at hh
        rcases hp : helius_process accounts with _ | d
        · simp [get_solana_holders_from_helius, hp] at hh
        · simp [get_solana_holders_from_helius, hp] at hh
          obtain ⟨-, rfl⟩ := hh
          exact helius_top10_sorted hp

/-- Witness for C9 on the fixture Solana report. -/
theorem solana_report_top10_sorted_witness :
    List.Pairwise (fun x y : HolderEntry => y.balance ≤ x.balance)
      [⟨"a", (5 : ℚ), (100 : ℚ)⟩]
    ∧ ([(⟨"a", (5 : ℚ), (100 : ℚ)⟩ : HolderEntry)]).length ≤ 10 := by
  obtain ⟨l, h1, h2, h3, h4⟩ := solana_report_top10_sorted upstream_solana_fixture 0 "a"
    solana_fixture_report analyze_token_fixture
  have h5 : solana_fixture_report.holder_analysis.top_10_holders
      = some [(⟨"a", (5 : ℚ), (100 : ℚ)⟩ : HolderEntry)] := rfl
  rw [h1] at h5
  have hl := Option.some.inj h5
  subst hl
  exact ⟨h3, h2⟩

/-- Counterexample for C9 as stated over every successful report: on the
Ethereum path a full report is returned whose holder analysis has no
`top_10_holders` key at all. -/
theorem report_top10_counterexample :
    (analyze_token
      { dex_pairs := [⟨"T", "T", 1, 1, 1, 1, 1, 1, 0, 0, 0, "dex", "p", 0, 1, 0, [], []⟩]
        moralis_eth := none
        moralis_bsc := none
        helius_accounts := none } 0 "a" "ethereum") ≠ none
    ∧ (analyze_token
      { dex_pairs := [⟨"T", "T", 1, 1, 1, 1, 1, 1, 0, 0, 0, "dex", "p", 0, 1, 0, [], []⟩]
        moralis_eth := none
        moralis_bsc := none
        helius_accounts := none } 0 "a" "ethereum").map
        (fun report => report.holder_analysis.top_10_holders) = some none := by
  constructor <;>
    simp [analyze_token, get_basic_token_data, get_holder_analysis,
      get_ethereum_holders_from_moralis, get_default_holder_analysis]

/-- Counterexample for C6 as stated: five identical balances of 0 are five
identical balances, yet `detect_bundles` answers `(false, 0)` — the 5%
window never admits a non-positive balance, so no group forms. -/
theorem detect_bundles_identical_zero_counterexample :
    detect_bundles (List.replicate 5 ⟨0, "o", "w"⟩) = (false, 0)
    ∧ detect_bundles (List.replicate 5 ⟨0, "o", "w"⟩) ≠ (true, 100) := by
  decide

/-- C6 (amended with positivity of the shared balance): on a 5-entry holder
list all holding one identical positive balance, `detect_bundles` returns
`(true, 100)` — the five holders fall within the 5% window of the first,
one qualifying group of size ≥ 3 forms, and its balance is the whole
observed supply. -/
theorem detect_bundles_identical (hs : List Holder) (b : ℚ) (hb : 0 < b)
    (hlen : hs.length = 5) (hall : ∀ h ∈ hs, h.amount = b) :
    detect_bundles hs = (true, 100) := by
  rcases hs with _ | ⟨h0, _ | ⟨h1, _ | ⟨h2, _ | ⟨h3, _ | ⟨h4, _ | ⟨h5, t⟩⟩⟩⟩⟩⟩ <;>
    simp only [List.length_cons, List.length_nil] at hlen <;> try omega
  obtain ⟨a0, o0, d0⟩ := h0
  obtain ⟨a1, o1, d1⟩ := h1
  obtain ⟨a2, o2, d2⟩ := h2
  obtain ⟨a3, o3, d3⟩ := h3
  obtain ⟨a4, o4, d4⟩ := h4
  have e0 : a0 = b := hall ⟨a0, o0, d0⟩ (by simp)
  have e1 : a1 = b := hall ⟨a1, o1, d1⟩ (by simp)
  have e2 : a2 = b := hall ⟨a2, o2, d2⟩ (by simp)
  have e3 : a3 = b := hall ⟨a3, o3, d3⟩ (by simp)
  have e4 : a4 = b := hall ⟨a4, o4, d4⟩ (by simp)
  rw [e0, e1, e2, e3, e4]
  have hc : ((0 : ℚ) < 5 / 100) := by norm_num
  have hr5 : List.range 5 = [0, 1, 2, 3, 4] := rfl
  have hr' : List.range' 1 4 = [1, 2, 3, 4] := rfl
  simp only [detect_bundles, bundle_outer, bundle_scan, hr5, hr',
    List.length_cons, List.length_nil, List.getD_cons_zero, List.getD_cons_succ,
    List.not_mem_nil, List.mem_cons, List.mem_append,
    hb, hb.ne', hc, sub_self, abs_zero, zero_div,
    if_true, if_false, List.sum_cons, List.sum_nil, List.map_cons, List.map_nil,
    add_zero, List.cons_ne_nil, ne_eq]
  norm_num
  have hpos : (0 : ℚ) < b + (b + (b + (b + b))) := by linarith
  rw [if_pos hpos, div_self hpos.ne']
  norm_num

/-- Witness for the amended C6 on five identical balances of 7. -/
theorem detect_bundles_identical_witness :
    detect_bundles [⟨7, "o", "w"⟩, ⟨7, "o", "w"⟩, ⟨7, "o", "w"⟩, ⟨7, "o", "w"⟩,
      ⟨7, "o", "w"⟩] = (true, 100) :=
  detect_bundles_identical
    [⟨7, "o", "w"⟩, ⟨7, "o", "w"⟩, ⟨7, "o", "w"⟩, ⟨7, "o", "w"⟩, ⟨7, "o", "w"⟩]
    7 (by norm_num) rfl (by decide)

end ApeBot
